import Mathlib

/-!
# fact-check-ai backend: news verification pipeline

Shallow embedding of the Go backend (`backend/internal/...`) and theorems about
its response parser, model adapter, news service, news handlers, token service
and OAuth callback.

Conventions of the embedding
* a Go `string` is a finite sequence of bytes: `GoString = List UInt8`;
  `str "..."` is the Go literal with that (ASCII) text;
* a Go slice expression that may be out of range returns `Option`; `none` is the
  run-time abort of the Go program;
* a Go `error` is its message (`err.Error()`), a `GoString`; `fmt.Errorf` with
  `%w` or `%s` is concatenation;
* collaborators that are not part of the repository (JSON codec, HTTP client,
  UUID parser, clock, OAuth2 and JWT libraries) are fields of an explicit
  environment record.
-/

namespace FactCheck

/-! ## Go strings -/

/-- Go `string`: a sequence of bytes. -/
abbrev GoString := List UInt8

/-- Go string literal with ASCII text. -/
def str (s : String) : GoString := s.toList.map (fun c => c.toNat.toUInt8)

/-- Go slice expression `s[:hi]`; out of range aborts (`none`). -/
def sliceTo (s : GoString) (hi : Nat) : Option GoString :=
  if hi ≤ s.length then some (s.take hi) else none

/-- Go slice expression `s[lo:]`; out of range aborts (`none`). -/
def sliceFrom (s : GoString) (lo : Nat) : Option GoString :=
  if lo ≤ s.length then some (s.drop lo) else none

/-! ## services/openai_service.go : the response parser -/

/-- Source `contains(s, substr)`, openai_service.go lines 182-187.
`&&` and `||` are evaluated left to right with short circuit; the recursive call
is on `s[1:]`, which aborts on the empty string. -/
def contains : GoString → GoString → Option Bool
  | s, substr =>
    if s.length ≥ substr.length then
      if s = substr then some true
      else if s.length > substr.length then
        (sliceTo s substr.length).bind fun p =>
          if p = substr then some true
          else (sliceFrom s (s.length - substr.length)).bind fun q =>
            if q = substr then some true
            else match s with
              | [] => none
              | _ :: t => contains t substr
      else some false
    else some false

/-- Go `a || b` on two calls of `contains`: the second call is made only when the
first returned false. -/
def containsEither (s a b : GoString) : Option Bool :=
  (contains s a).bind fun x => if x then some true else contains s b

/-- Source `parseOpenAIResponse(response)`, openai_service.go lines 162-180.
Returns `(status, explanation)`. -/
def parseOpenAIResponse (response : GoString) : Option (GoString × GoString) :=
  let response := response ++ str " "
  (containsEither response (str "TRUE") (str "true")).bind fun isTrue =>
    if isTrue then some (str "true", response)
    else (containsEither response (str "FALSE") (str "false")).bind fun isFalse =>
      if isFalse then some (str "false", response)
      else some (str "uncertain", response)

/-! ## config/config.go -/

/-- Source `config.Config`: the two fields the model adapter reads and the signing
secret the token service reads; the secret defaults to the default `Load` gives
`JWT_SECRET`. -/
structure Config where
  OpenAIAPIKey : GoString
  OpenAIEndpoint : GoString
  JWTSecret : GoString := str "your-secret-key-change-in-production"

/-! ## services/openai_service.go : the model adapter -/

/-- Source `Message`. -/
structure Message where
  Role : GoString
  Content : GoString
deriving DecidableEq

/-- Source `OpenAIRequest`. -/
structure OpenAIRequest where
  Model : GoString
  Messages : List Message
  MaxTokens : Int
deriving DecidableEq

/-- Source: the anonymous `error` struct of `OpenAIResponse` and of `errorResp`
(`Type_` is the Go field `Type`). -/
structure APIError where
  Message : GoString
  Type_ : GoString
  Code : GoString
deriving DecidableEq

/-- Source `Choice`. -/
structure Choice where
  Message : Message
deriving DecidableEq

/-- Source `OpenAIResponse`; `Error` is a pointer, `none` is nil. -/
structure OpenAIResponse where
  Choices : List Choice
  Error : Option APIError
deriving DecidableEq

/-- Go `*http.Request` as far as the adapter sets it. -/
structure HTTPRequest where
  Method : GoString
  URL : GoString
  Body : GoString
  Header : List (GoString × GoString)
deriving DecidableEq

/-- Go `*http.Response`: the status code and what `io.ReadAll(resp.Body)` gives. -/
structure HTTPResponse where
  StatusCode : Int
  ReadAll : Except GoString GoString

/-- Collaborators of the model adapter that live outside the repository:
`encoding/json` and `net/http`.  An `Except.error` carries `err.Error()`. -/
structure Extern where
  jsonMarshal : OpenAIRequest → Except GoString GoString
  newRequest : GoString → GoString → GoString → Except GoString HTTPRequest
  clientDo : HTTPRequest → Except GoString HTTPResponse
  unmarshalErrorResp : GoString → Except GoString APIError
  unmarshalOpenAIResponse : GoString → Except GoString OpenAIResponse

/-- Observable actions of `VerifyNews`, in the order they are made. -/
inductive Event where
  | promptBuilt (prompt : GoString)
  | httpDo (req : HTTPRequest)
deriving DecidableEq

/-- The three results `(string, string, error)` of `VerifyNews`; `err = none` is
a nil error. -/
structure VerifyResult where
  status : GoString
  explanation : GoString
  err : Option GoString
deriving DecidableEq

/-- Go `return "", "", fmt.Errorf(...)`. -/
def VerifyResult.fail (msg : GoString) : VerifyResult := ⟨str "", str "", some msg⟩

/-- Go `fmt` verb `%d` on an `int`. -/
def itoa (n : Int) : GoString := str (toString n)

/-- Go `http.StatusOK`. -/
def StatusOK : Int := 200

/-- Source `buildPrompt(content, link, photoURL)`, openai_service.go lines 146-160. -/
def buildPrompt (content link photoURL : GoString) : GoString :=
  let prompt := str "Please fact-check the following news content:\n\nContent: "
    ++ content ++ str "\n"
  let prompt := if link ≠ str "" then prompt ++ (str "Source Link: " ++ link ++ str "\n")
    else prompt
  let prompt := if photoURL ≠ str "" then prompt ++ (str "Photo URL: " ++ photoURL ++ str "\n")
    else prompt
  prompt ++ str "\nPlease respond with:\n1. A clear assessment: 'TRUE', 'FALSE', or 'UNCERTAIN'\n2. A detailed explanation for your assessment\n3. Any relevant context or sources you considered"

/-- Source `IsAvailable()`, openai_service.go lines 190-192. -/
def IsAvailable (cfg : Config) : Bool :=
  decide (cfg.OpenAIAPIKey ≠ str "") && decide (cfg.OpenAIAPIKey ≠ str "your-openai-api-key")

/-- The chat request built on lines 59-72. -/
def chatRequest (prompt : GoString) : OpenAIRequest :=
  { Model := str "gpt-3.5-turbo"
    Messages :=
      [ { Role := str "system"
          Content := str "You are a fact-checking expert. Analyze the provided news content and determine if it's likely to be true or false. Provide a clear explanation for your assessment." },
        { Role := str "user", Content := prompt } ]
    MaxTokens := 500 }

/-- The two `req.Header.Set` calls on lines 84-85. -/
def setHeaders (cfg : Config) (req : HTTPRequest) : HTTPRequest :=
  { req with
    Header := req.Header ++
      [(str "Content-Type", str "application/json"),
       (str "Authorization", str "Bearer " ++ cfg.OpenAIAPIKey)] }

/-- Source `VerifyNews(content, link, photoURL)`, openai_service.go lines 51-144.
The second component is `none` when the Go code aborts at run time. Calls of the
logger are left out. -/
def VerifyNews (cfg : Config) (ext : Extern) (content link photoURL : GoString) :
    List Event × Option VerifyResult :=
  if cfg.OpenAIAPIKey = str "" ∨ cfg.OpenAIAPIKey = str "your-openai-api-key" then
    ([], some ⟨str "uncertain",
      str "OpenAI API not configured. Please configure your OpenAI API key to enable fact-checking.",
      none⟩)
  else
    let prompt := buildPrompt content link photoURL
    match ext.jsonMarshal (chatRequest prompt) with
    | .error err =>
      ([.promptBuilt prompt],
        some (.fail (str "failed to marshal OpenAI request: " ++ err)))
    | .ok jsonData =>
      match ext.newRequest (str "POST") (cfg.OpenAIEndpoint ++ str "/chat/completions")
          jsonData with
      | .error err =>
        ([.promptBuilt prompt], some (.fail (str "failed to create HTTP request: " ++ err)))
      | .ok req0 =>
        let req := setHeaders cfg req0
        let events := [Event.promptBuilt prompt, Event.httpDo req]
        match ext.clientDo req with
        | .error err => (events, some (.fail (str "failed to make HTTP request: " ++ err)))
        | .ok resp =>
          match resp.ReadAll with
          | .error err => (events, some (.fail (str "failed to read response body: " ++ err)))
          | .ok body =>
            if resp.StatusCode ≠ StatusOK then
              match ext.unmarshalErrorResp body with
              | .ok e =>
                if e.Code = str "insufficient_quota" then
                  (events, some (.fail (str "OpenAI API quota exceeded: " ++ e.Message
                    ++ str ". Please check your billing and upgrade your plan.")))
                else if e.Code = str "rate_limit_exceeded" then
                  (events, some (.fail (str "OpenAI API rate limit exceeded: " ++ e.Message
                    ++ str ". Please try again later.")))
                else
                  (events, some (.fail (str "OpenAI API error (" ++ e.Code ++ str "): "
                    ++ e.Message)))
              | .error _ =>
                (events, some (.fail (str "OpenAI API returned status " ++ itoa resp.StatusCode)))
            else
              match ext.unmarshalOpenAIResponse body with
              | .error err =>
                (events, some (.fail (str "failed to unmarshal OpenAI response: " ++ err)))
              | .ok openAIResp =>
                match openAIResp.Error with
                | some e => (events, some (.fail (str "OpenAI API error: " ++ e.Message)))
                | none =>
                  match openAIResp.Choices with
                  | [] => (events, some (.fail (str "no response from OpenAI API")))
                  | choice :: _ =>
                    match parseOpenAIResponse choice.Message.Content with
                    | none => (events, none)
                    | some (status, explanation) => (events, some ⟨status, explanation, none⟩)

/-! ## models/models.go -/

/-- Go `uuid.UUID` (128 bits), as a number. -/
abbrev UUID := Nat

/-- Go `time.Time` and SQL timestamps, as a number of clock ticks. -/
abbrev Time := Nat

/-- Source `models.User`. -/
structure User where
  ID : UUID
  GoogleID : GoString
  Email : GoString
  Name : GoString
  Picture : GoString
  CreatedAt : Time
  UpdatedAt : Time
deriving DecidableEq

/-- Source `models.News`; a `*string` is an `Option`, nil is `none`. -/
structure News where
  ID : UUID
  UserID : UUID
  Content : GoString
  Link : Option GoString
  PhotoURL : Option GoString
  Status : GoString
  Explanation : Option GoString
  CreatedAt : Time
  UpdatedAt : Time
deriving DecidableEq

/-- Source `models.NewsSubmission`; `Content` carries the tag `binding:"required"`. -/
structure NewsSubmission where
  Content : GoString
  Link : Option GoString
  PhotoURL : Option GoString
deriving DecidableEq

/-- Source `models.NewsVerification`. -/
structure NewsVerification where
  ID : UUID
  Status : GoString
  Explanation : GoString
deriving DecidableEq

/-! ## database/database.go : the schema of `RunMigrations` -/

/-- The two tables created by `RunMigrations`, rows in insertion order. -/
structure DB where
  users : List User
  news : List News
deriving DecidableEq

/-- The column constraint `CHECK (status IN ('pending', 'true', 'false'))` of the
`news` table, database.go line 68. -/
def statusCheck (status : GoString) : Bool :=
  decide (status = str "pending" ∨ status = str "true" ∨ status = str "false")

/-- Collaborators of the news service and of the handlers that live outside the
repository, as they answer during one request: `uuid.Parse`, `uuid.New`, the two
`time.Now()` calls of `SubmitNews`, the database's `CURRENT_TIMESTAMP`, failures
of the database driver that are not decided by the table contents (connection
loss and the like, `none` when there is none), and the JSON decoding step of
gin's `ShouldBindJSON`. -/
structure Sys where
  uuidParse : GoString → Except GoString UUID
  uuidNew : UUID
  now : Time
  nowAgain : Time
  currentTimestamp : Time
  queryFault : Option GoString
  execFault : Option GoString
  rowsAffectedFault : Option GoString
  decodeSubmission : GoString → Except GoString NewsSubmission

/-- The statement `INSERT INTO news (...) VALUES (...)` of `SubmitNews` under the
schema: primary key on `id`, foreign key `user_id` into `users`, status check. -/
def execInsertNews (sys : Sys) (db : DB) (n : News) : Except GoString DB :=
  match sys.execFault with
  | some e => .error e
  | none =>
    if db.news.any (fun m => m.ID = n.ID) then
      .error (str "pq: duplicate key value violates unique constraint \"news_pkey\"")
    else if ¬ db.users.any (fun u => u.ID = n.UserID) then
      .error (str "pq: insert or update on table \"news\" violates foreign key constraint \"news_user_id_fkey\"")
    else if ¬ statusCheck n.Status then
      .error (str "pq: new row for relation \"news\" violates check constraint \"news_status_check\"")
    else .ok { db with news := db.news ++ [n] }

/-- What `QueryRow(...).Scan(...)` gives. -/
inductive RowResult where
  | row (n : News)
  | noRows
  | fault (err : GoString)
deriving DecidableEq

/-- The statement `SELECT ... FROM news WHERE id = $1` of `GetNewsByID`. -/
def queryRowNewsByID (sys : Sys) (db : DB) (id : UUID) : RowResult :=
  match sys.queryFault with
  | some e => .fault e
  | none =>
    match db.news.find? (fun n => n.ID = id) with
    | some n => .row n
    | none => .noRows

/-- The statement `SELECT ... FROM news WHERE user_id = $1 ORDER BY created_at DESC`
of `GetUserNews`; rows with equal `created_at` are kept in insertion order. -/
def queryNewsByUser (sys : Sys) (db : DB) (user : UUID) : Except GoString (List News) :=
  match sys.queryFault with
  | some e => .error e
  | none =>
    .ok ((db.news.filter (fun n => n.UserID = user)).insertionSort
      (fun a b => a.CreatedAt ≥ b.CreatedAt))

/-- The statement `UPDATE news SET status = $1, explanation = $2,
updated_at = CURRENT_TIMESTAMP WHERE id = $3` of `UpdateNewsStatus` under the
schema; gives the new tables and the number of rows affected. -/
def execUpdateNews (sys : Sys) (db : DB) (status explanation : GoString) (id : UUID) :
    Except GoString (DB × Nat) :=
  match sys.execFault with
  | some e => .error e
  | none =>
    if db.news.any (fun n => n.ID = id) ∧ ¬ statusCheck status then
      .error (str "pq: new row for relation \"news\" violates check constraint \"news_status_check\"")
    else
      .ok ({ db with
             news := db.news.map fun n =>
               if n.ID = id then
                 { n with Status := status, Explanation := some explanation,
                          UpdatedAt := sys.currentTimestamp }
               else n },
           (db.news.filter (fun n => n.ID = id)).length)

/-! ## services/news_service.go -/

/-- Source `NewsService.SubmitNews`, news_service.go lines 26-54. -/
def SubmitNews (sys : Sys) (db : DB) (userID : GoString) (submission : NewsSubmission) :
    DB × Except GoString News :=
  match sys.uuidParse userID with
  | .error err => (db, .error (str "invalid user ID: " ++ err))
  | .ok userUUID =>
    let news : News :=
      { ID := sys.uuidNew, UserID := userUUID, Content := submission.Content,
        Link := submission.Link, PhotoURL := submission.PhotoURL,
        Status := str "pending", Explanation := none,
        CreatedAt := sys.now, UpdatedAt := sys.nowAgain }
    match execInsertNews sys db news with
    | .error err => (db, .error (str "failed to insert news: " ++ err))
    | .ok db' => (db', .ok news)

/-- Source `NewsService.GetNewsByID`, news_service.go lines 56-79. -/
def GetNewsByID (sys : Sys) (db : DB) (newsID : GoString) : Except GoString News :=
  match sys.uuidParse newsID with
  | .error err => .error (str "invalid news ID: " ++ err)
  | .ok newsUUID =>
    match queryRowNewsByID sys db newsUUID with
    | .fault err => .error (str "failed to get news: " ++ err)
    | .noRows => .error (str "news not found")
    | .row news => .ok news

/-- Source `NewsService.GetUserNews`, news_service.go lines 81-114. -/
def GetUserNews (sys : Sys) (db : DB) (userID : GoString) : Except GoString (List News) :=
  match sys.uuidParse userID with
  | .error err => .error (str "invalid user ID: " ++ err)
  | .ok userUUID =>
    match queryNewsByUser sys db userUUID with
    | .error err => .error (str "failed to query user news: " ++ err)
    | .ok newsList => .ok newsList

/-- Source `NewsService.UpdateNewsStatus`, news_service.go lines 116-141; the
second component is the returned error, `none` for nil. -/
def UpdateNewsStatus (sys : Sys) (db : DB) (newsID status explanation : GoString) :
    DB × Option GoString :=
  match sys.uuidParse newsID with
  | .error err => (db, some (str "invalid news ID: " ++ err))
  | .ok newsUUID =>
    match execUpdateNews sys db status explanation newsUUID with
    | .error err => (db, some (str "failed to update news status: " ++ err))
    | .ok (db', rowsAffected) =>
      match sys.rowsAffectedFault with
      | some err => (db', some (str "failed to get rows affected: " ++ err))
      | none =>
        if rowsAffected = 0 then (db', some (str "news not found"))
        else (db', none)

/-! ## handlers/news_handler.go -/

/-- What a handler reads from `*gin.Context`: the path parameter `id`, the value
stored under "user_id" by the authentication middleware (a string; `none` when
the key is absent) and the request body. -/
structure Context where
  paramID : GoString
  userID : Option GoString
  body : GoString
deriving DecidableEq

/-- JSON payloads written by the news handlers. -/
inductive Payload where
  | error (msg : GoString)
  | errorDetails (msg details : GoString)
  | news (n : News)
  | verification (v : NewsVerification)
  | newsList (news : List News) (count : Int)
deriving DecidableEq

/-- The call `c.JSON(code, payload)`. -/
structure Response where
  code : Nat
  payload : Payload
deriving DecidableEq

/-- Calls a handler makes on the two services. -/
inductive Call where
  | SubmitNews (userID : GoString) (submission : NewsSubmission)
  | GetNewsByID (newsID : GoString)
  | GetUserNews (userID : GoString)
  | VerifyNews (content link photoURL : GoString)
  | UpdateNewsStatus (newsID status explanation : GoString)
deriving DecidableEq

/-- Outcome of one handler run: the tables afterwards, the service calls and the
adapter's actions in order, and the response; `resp = none` when the Go code
aborted before writing one. -/
structure HandlerResult where
  db : DB
  calls : List Call
  events : List Event
  resp : Option Response
deriving DecidableEq

/-- gin's `c.ShouldBindJSON(&submission)`: JSON decoding, then the validation of
the `binding:"required"` tag on `Content`. -/
def ShouldBindJSON (sys : Sys) (body : GoString) : Except GoString NewsSubmission :=
  match sys.decodeSubmission body with
  | .error err => .error err
  | .ok submission =>
    if submission.Content = str "" then
      .error (str "Key: 'NewsSubmission.Content' Error:Field validation for 'Content' failed on the 'required' tag")
    else .ok submission

/-- Source `NewsHandler.Submit`, news_handler.go lines 28-51. -/
def Submit (sys : Sys) (db : DB) (c : Context) : HandlerResult :=
  match ShouldBindJSON sys c.body with
  | .error _ => ⟨db, [], [], some ⟨400, .error (str "Invalid request body")⟩⟩
  | .ok submission =>
    match c.userID with
    | none => ⟨db, [], [], some ⟨401, .error (str "User not authenticated")⟩⟩
    | some userID =>
      match SubmitNews sys db userID submission with
      | (db', .error _) =>
        ⟨db', [.SubmitNews userID submission], [],
          some ⟨500, .error (str "Failed to submit news")⟩⟩
      | (db', .ok news) =>
        ⟨db', [.SubmitNews userID submission], [], some ⟨201, .news news⟩⟩

/-- Source `NewsHandler.Verify`, news_handler.go lines 54-109. -/
def Verify (cfg : Config) (ext : Extern) (sys : Sys) (db : DB) (c : Context) : HandlerResult :=
  let newsID := c.paramID
  if newsID = str "" then ⟨db, [], [], some ⟨400, .error (str "News ID is required")⟩⟩
  else
    match GetNewsByID sys db newsID with
    | .error _ => ⟨db, [.GetNewsByID newsID], [], some ⟨404, .error (str "News not found")⟩⟩
    | .ok news =>
      let link := match news.Link with
        | some l => l
        | none => str ""
      let photoURL := match news.PhotoURL with
        | some p => p
        | none => str ""
      let calls := [Call.GetNewsByID newsID, Call.VerifyNews news.Content link photoURL]
      match VerifyNews cfg ext news.Content link photoURL with
      | (events, none) => ⟨db, calls, events, none⟩
      | (events, some ⟨_, _, some err⟩) =>
        let errorMessage := if err ≠ str "" then err else str "Failed to verify news"
        ⟨db, calls, events,
          some ⟨500, .errorDetails errorMessage
            (str "The fact-checking service is currently unavailable. Please try again later or contact support if the issue persists.")⟩⟩
      | (events, some ⟨status, explanation, none⟩) =>
        let calls := calls ++ [Call.UpdateNewsStatus newsID status explanation]
        match UpdateNewsStatus sys db newsID status explanation with
        | (db', some _) =>
          ⟨db', calls, events, some ⟨500, .error (str "Failed to update news status")⟩⟩
        | (db', none) =>
          ⟨db', calls, events, some ⟨200, .verification ⟨news.ID, status, explanation⟩⟩⟩

/-- Source `NewsHandler.GetUserNews`, news_handler.go lines 112-138. -/
def GetUserNewsHandler (sys : Sys) (db : DB) (c : Context) : HandlerResult :=
  let userID := c.paramID
  if userID = str "" then ⟨db, [], [], some ⟨400, .error (str "User ID is required")⟩⟩
  else
    match c.userID with
    | none => ⟨db, [], [], some ⟨403, .error (str "Access denied")⟩⟩
    | some requestingUserID =>
      if requestingUserID ≠ userID then ⟨db, [], [], some ⟨403, .error (str "Access denied")⟩⟩
      else
        match GetUserNews sys db userID with
        | .error _ =>
          ⟨db, [.GetUserNews userID], [], some ⟨500, .error (str "Failed to retrieve news")⟩⟩
        | .ok newsList =>
          ⟨db, [.GetUserNews userID], [],
            some ⟨200, .newsList newsList (newsList.length : Nat)⟩⟩

/-! ## The server as a state machine over the tables -/

/-- The two endpoints a request of a run addresses. -/
inductive Endpoint where
  | submit
  | verify
deriving DecidableEq

/-- One request of a run, with the world as it answers during this request. -/
structure Request where
  endpoint : Endpoint
  context : Context
  ext : Extern
  sys : Sys

/-- Routing of one request to its handler (`main.go`, the `/news` group). -/
def serve (cfg : Config) (db : DB) (r : Request) : HandlerResult :=
  match r.endpoint with
  | .submit => Submit r.sys db r.context
  | .verify => Verify cfg r.ext r.sys db r.context

/-- The tables after a sequence of requests, served one after the other. -/
def run (cfg : Config) (db : DB) : List Request → DB
  | [] => db
  | r :: rs => run cfg (serve cfg db r).db rs

/-! ## services/auth_service.go -/

/-- Source `models.GoogleUserInfo`. -/
structure GoogleUserInfo where
  ID : GoString
  Email : GoString
  VerifiedEmail : Bool
  Name : GoString
  Picture : GoString
deriving DecidableEq

/-- Source `models.AuthCallbackResponse`. -/
structure AuthCallbackResponse where
  Token : GoString
  User : User
deriving DecidableEq

/-- A value of the claim set of a parsed token: a JSON string or another JSON
value. -/
inductive ClaimValue where
  | string (s : GoString)
  | other
deriving DecidableEq

/-- Go `*jwt.Token` as far as `ValidateToken` and its key function read it:
whether `Method` is a `*jwt.SigningMethodHMAC`, the text `%v` prints for
`Header["alg"]`, the claims when they are a `jwt.MapClaims`, and `Valid`. -/
structure JWTToken where
  methodHMAC : Bool
  headerAlg : GoString
  Claims : Option (List (GoString × ClaimValue))
  Valid : Bool
deriving DecidableEq

/-- Source `jwt.RegisteredClaims` as `generateJWT` fills it. -/
structure RegisteredClaims where
  Subject : GoString
  ExpiresAt : Time
  IssuedAt : Time
deriving DecidableEq

/-- Collaborators of the auth service that live outside the repository, as they
answer during one request: `oauth2.Config.Exchange` (its access token),
`net/http` and the JSON decoder of the user-info call, `uuid.UUID.String`, the
two `time.Now()` calls of `generateJWT`, `jwt.Token.SignedString`, `jwt.Parse`
(which is handed the key function), and a failure of the `UPDATE users`
statement that is not decided by the table contents. -/
structure AuthExtern where
  exchange : GoString → Except GoString GoString
  newRequest : GoString → GoString → Except GoString HTTPRequest
  clientDo : HTTPRequest → Except GoString HTTPResponse
  decodeUserInfo : HTTPResponse → Except GoString GoogleUserInfo
  uuidString : UUID → GoString
  jwtNow : Time
  jwtNowAgain : Time
  signedString : RegisteredClaims → GoString → Except GoString GoString
  jwtParse : GoString → (JWTToken → Except GoString GoString) → Except GoString JWTToken
  updateFault : Option GoString

/-- Go `24 * time.Hour`, in nanoseconds. -/
def hours24 : Time := 24 * 3600 * 1000000000

/-- Source `getGoogleUserInfo(accessToken)`, auth_service.go lines 96-116. -/
def getGoogleUserInfo (ax : AuthExtern) (accessToken : GoString) :
    Except GoString GoogleUserInfo :=
  match ax.newRequest (str "GET") (str "https://www.googleapis.com/oauth2/v2/userinfo") with
  | .error err => .error err
  | .ok req0 =>
    let req : HTTPRequest :=
      { req0 with Header := req0.Header ++ [(str "Authorization", str "Bearer " ++ accessToken)] }
    match ax.clientDo req with
    | .error err => .error err
    | .ok resp =>
      match ax.decodeUserInfo resp with
      | .error err => .error err
      | .ok userInfo => .ok userInfo

/-- What `QueryRow(...).Scan(...)` gives on the `users` table. -/
inductive UserRowResult where
  | row (u : User)
  | noRows
  | fault (err : GoString)
deriving DecidableEq

/-- The statement `SELECT ... FROM users WHERE google_id = $1`. -/
def queryRowUserByGoogleID (sys : Sys) (db : DB) (googleID : GoString) : UserRowResult :=
  match sys.queryFault with
  | some e => .fault e
  | none =>
    match db.users.find? (fun u => u.GoogleID = googleID) with
    | some u => .row u
    | none => .noRows

/-- The statement `UPDATE users SET name = $1, picture = $2,
updated_at = CURRENT_TIMESTAMP WHERE id = $3 RETURNING updated_at`; gives the new
tables and the returned timestamp. -/
def queryRowUpdateUser (sys : Sys) (ax : AuthExtern) (db : DB) (name picture : GoString)
    (id : UUID) : Except GoString (DB × Time) :=
  match ax.updateFault with
  | some e => .error e
  | none =>
    if db.users.any (fun u => u.ID = id) then
      .ok ({ db with
             users := db.users.map fun u =>
               if u.ID = id then
                 { u with Name := name, Picture := picture, UpdatedAt := sys.currentTimestamp }
               else u },
           sys.currentTimestamp)
    else .error (str "sql: no rows in result set")

/-- The statement `INSERT INTO users (...) VALUES (...)` under the schema: primary
key on `id`, `google_id` and `email` unique. -/
def execInsertUser (sys : Sys) (db : DB) (u : User) : Except GoString DB :=
  match sys.execFault with
  | some e => .error e
  | none =>
    if db.users.any (fun v => v.ID = u.ID) then
      .error (str "pq: duplicate key value violates unique constraint \"users_pkey\"")
    else if db.users.any (fun v => v.GoogleID = u.GoogleID) then
      .error (str "pq: duplicate key value violates unique constraint \"users_google_id_key\"")
    else if db.users.any (fun v => v.Email = u.Email) then
      .error (str "pq: duplicate key value violates unique constraint \"users_email_key\"")
    else .ok { db with users := db.users ++ [u] }

/-- Source `findOrCreateUser(googleUser)`, auth_service.go lines 118-164.  The
result of the `UPDATE ... RETURNING` scan is not checked: on failure the user is
returned as read. -/
def findOrCreateUser (sys : Sys) (ax : AuthExtern) (db : DB) (googleUser : GoogleUserInfo) :
    DB × Except GoString User :=
  match queryRowUserByGoogleID sys db googleUser.ID with
  | .row user =>
    if user.Name ≠ googleUser.Name ∨ user.Picture ≠ googleUser.Picture then
      match queryRowUpdateUser sys ax db googleUser.Name googleUser.Picture user.ID with
      | .ok (db', updatedAt) => (db', .ok { user with UpdatedAt := updatedAt })
      | .error _ => (db, .ok user)
    else (db, .ok user)
  | .fault err => (db, .error err)
  | .noRows =>
    let user : User :=
      { ID := sys.uuidNew, GoogleID := googleUser.ID, Email := googleUser.Email,
        Name := googleUser.Name, Picture := googleUser.Picture,
        CreatedAt := sys.now, UpdatedAt := sys.nowAgain }
    match execInsertUser sys db user with
    | .error err => (db, .error (str "failed to create user: " ++ err))
    | .ok db' => (db', .ok user)

/-- Source `generateJWT(userID)`, auth_service.go lines 166-185; `none` is the
run-time abort of one of the two slice expressions `JWTSecret[:10]` and
`tokenString[:20]`. -/
def generateJWT (cfg : Config) (ax : AuthExtern) (userID : GoString) :
    Option (Except GoString GoString) :=
  match sliceTo cfg.JWTSecret 10 with
  | none => none
  | some _ =>
    let claims : RegisteredClaims :=
      { Subject := userID, ExpiresAt := ax.jwtNow + hours24, IssuedAt := ax.jwtNowAgain }
    match ax.signedString claims cfg.JWTSecret with
    | .error err => some (.error err)
    | .ok tokenString =>
      match sliceTo tokenString 20 with
      | none => none
      | some _ => some (.ok tokenString)

/-- Source `HandleCallback(code)`, auth_service.go lines 52-94; the second
component is `none` when the Go code aborts at run time in one of the slice
expressions `code[:10]`, `token.AccessToken[:10]` or those of `generateJWT`. -/
def HandleCallback (cfg : Config) (sys : Sys) (ax : AuthExtern) (db : DB) (code : GoString) :
    DB × Option (Except GoString AuthCallbackResponse) :=
  match sliceTo code 10 with
  | none => (db, none)
  | some _ =>
    match ax.exchange code with
    | .error err => (db, some (.error (str "failed to exchange code for token: " ++ err)))
    | .ok accessToken =>
      match sliceTo accessToken 10 with
      | none => (db, none)
      | some _ =>
        match getGoogleUserInfo ax accessToken with
        | .error err => (db, some (.error (str "failed to get user info: " ++ err)))
        | .ok userInfo =>
          match findOrCreateUser sys ax db userInfo with
          | (db', .error err) =>
            (db', some (.error (str "failed to find or create user: " ++ err)))
          | (db', .ok user) =>
            match generateJWT cfg ax (ax.uuidString user.ID) with
            | none => (db', none)
            | some (.error err) => (db', some (.error (str "failed to generate JWT: " ++ err)))
            | some (.ok jwtToken) => (db', some (.ok ⟨jwtToken, user⟩))

/-- The key function `ValidateToken` hands to `jwt.Parse`, lines 191-196. -/
def keyFunc (cfg : Config) (token : JWTToken) : Except GoString GoString :=
  if ¬ token.methodHMAC then .error (str "unexpected signing method: " ++ token.headerAlg)
  else .ok cfg.JWTSecret

/-- Source `ValidateToken(tokenString)`, auth_service.go lines 187-221: `none` is
the run-time abort of a slice expression (`tokenString[:10]`, `JWTSecret[:10]`) or
of the type assertion `subject.(string)`; `some (.error msg)` is the result
`("", err)` and `some (.ok subject)` the result `(subject, nil)`. -/
def ValidateToken (cfg : Config) (ax : AuthExtern) (tokenString : GoString) :
    Option (Except GoString GoString) :=
  match sliceTo tokenString 10 with
  | none => none
  | some _ =>
    match sliceTo cfg.JWTSecret 10 with
    | none => none
    | some _ =>
      match ax.jwtParse tokenString (keyFunc cfg) with
      | .error err => some (.error (str "failed to parse token: " ++ err))
      | .ok token =>
        if ¬ token.Valid then some (.error (str "invalid token"))
        else
          match token.Claims with
          | some claims =>
            match claims.lookup (str "sub") with
            | some (.string subject) => some (.ok subject)
            | some .other => none
            | none => some (.error (str "subject claim not found"))
          | none => some (.error (str "invalid token"))

/-! ## handlers/auth_handler.go -/

/-- JSON payloads written by `AuthHandler.Callback`. -/
inductive AuthPayload where
  | error (msg : GoString)
  | callback (response : AuthCallbackResponse)
deriving DecidableEq

/-- Outcome of one run of `AuthHandler.Callback`: the tables afterwards and the
call `c.JSON(code, payload)`; `resp = none` when the Go code aborted before
writing a response. -/
structure AuthHandlerResult where
  db : DB
  resp : Option (Nat × AuthPayload)
deriving DecidableEq

/-- Source `AuthHandler.Callback`, auth_handler.go lines 33-49; `code` is
`c.Query("code")`. -/
def Callback (cfg : Config) (sys : Sys) (ax : AuthExtern) (db : DB) (code : GoString) :
    AuthHandlerResult :=
  if code = str "" then ⟨db, some (400, .error (str "Authorization code is required"))⟩
  else
    match HandleCallback cfg sys ax db code with
    | (db', none) => ⟨db', none⟩
    | (db', some (.error _)) => ⟨db', some (500, .error (str "Failed to authenticate user"))⟩
    | (db', some (.ok response)) => ⟨db', some (200, .callback response)⟩

/-! ## Concrete worlds used to exercise the model -/

/-- A configuration with a model credential. -/
def liveConfig : Config :=
  { OpenAIAPIKey := str "sk-test", OpenAIEndpoint := str "https://api.openai.com/v1" }

/-- An error body of the provider: code and type "server_error", message "boom". -/
def serverErrorBody : GoString :=
  str "\x7b\"error\":\x7b\"message\":\"boom\",\"type\":\"server_error\",\"code\":\"server_error\"\x7d\x7d"

/-- A success body of the provider whose single completion is `text`; the text
is put between the brackets as it is (the worlds below use plain ASCII text). -/
def completionBody (text : GoString) : GoString :=
  str "\x7b\"choices\":[\x7b\"message\":\x7b\"role\":\"assistant\",\"content\":\""
    ++ text ++ str "\"\x7d\x7d]\x7d"

/-- A world in which the provider answers every request with status `status` and
body `body`.  The JSON decoders know `serverErrorBody` and the bodies
`completionBody text` for the texts in `texts`; any other body is not JSON.
The encoded request is not read by anything in this world. -/
def cannedExtern (status : Int) (body : GoString) (texts : List GoString) : Extern :=
  { jsonMarshal := fun r =>
      .ok (str "\x7b\"model\":\"" ++ r.Model ++ str "\",\"messages\":[...],\"max_tokens\":500\x7d")
    newRequest := fun method url data => .ok ⟨method, url, data, []⟩
    clientDo := fun _ => .ok ⟨status, .ok body⟩
    unmarshalErrorResp := fun b =>
      if b = serverErrorBody then .ok ⟨str "boom", str "server_error", str "server_error"⟩
      else if texts.any (fun t => b = completionBody t) then .ok ⟨str "", str "", str ""⟩
      else .error (str "invalid character 'B' looking for beginning of value")
    unmarshalOpenAIResponse := fun b =>
      match texts.find? (fun t => b = completionBody t) with
      | some t => .ok ⟨[⟨⟨str "assistant", t⟩⟩], none⟩
      | none =>
        if b = serverErrorBody then
          .ok ⟨[], some ⟨str "boom", str "server_error", str "server_error"⟩⟩
        else .error (str "invalid character 'B' looking for beginning of value") }

/-- Value of one hexadecimal digit. -/
def hexVal (b : UInt8) : Option Nat :=
  if 48 ≤ b ∧ b ≤ 57 then some (b.toNat - 48)
  else if 97 ≤ b ∧ b ≤ 102 then some (b.toNat - 87)
  else if 65 ≤ b ∧ b ≤ 70 then some (b.toNat - 55)
  else none

/-- A UUID parser for the canonical 36-byte form
`xxxxxxxx-xxxx-xxxx-xxxx-xxxxxxxxxxxx`; any other text is an error, worded as
`uuid.Parse` words it. -/
def parseCanonical (s : GoString) : Except GoString UUID :=
  if s.length ≠ 36 then .error (str "invalid UUID length: " ++ itoa s.length)
  else if s[8]? ≠ some 45 ∨ s[13]? ≠ some 45 ∨ s[18]? ≠ some 45 ∨ s[23]? ≠ some 45 then
    .error (str "invalid UUID format")
  else
    match (s.filter (fun b => b ≠ 45)).mapM hexVal with
    | none => .error (str "invalid UUID format")
    | some ds =>
      if ds.length ≠ 32 then .error (str "invalid UUID format")
      else .ok (ds.foldl (fun acc d => 16 * acc + d) 0)

/-- The id string of user 1. -/
def userOneID : GoString := str "00000000-0000-0000-0000-000000000001"

/-- The id string of the news row 10 (hexadecimal 0a). -/
def newsTenID : GoString := str "00000000-0000-0000-0000-00000000000a"

/-- A world of the news service without driver failures: canonical UUID parser,
`uuid.New()` gives 10, the clocks read `t`, and the body decoder knows the one
body `\x7b"content":"The moon is made of cheese"\x7d`. -/
def calmSys (t : Time) : Sys :=
  { uuidParse := parseCanonical
    uuidNew := 10
    now := t
    nowAgain := t
    currentTimestamp := t
    queryFault := none
    execFault := none
    rowsAffectedFault := none
    decodeSubmission := fun b =>
      if b = str "\x7b\"content\":\"The moon is made of cheese\"\x7d" then
        .ok ⟨str "The moon is made of cheese", none, none⟩
      else .error (str "invalid character 'B' looking for beginning of value") }

/-- Tables with the single user 1 and no news. -/
def oneUserDB : DB :=
  { users := [⟨1, str "g-1", str "a@example.com", str "A", str "", 0, 0⟩], news := [] }

/-- Tables with user 1 and the news row 10 of user 1, still pending. -/
def oneNewsDB : DB :=
  { oneUserDB with
    news := [⟨10, 1, str "The moon is made of cheese", none, none, str "pending", none, 1, 1⟩] }

/-- A run of three requests by user 1: submit a news item (it gets id 10), verify
it while the provider's completion is "TRUE", verify it again while the
provider's completion is "FALSE". -/
def submitVerifyVerify : List Request :=
  [ { endpoint := .submit
      context := ⟨str "", some userOneID, str "\x7b\"content\":\"The moon is made of cheese\"\x7d"⟩
      ext := cannedExtern 200 (str "") []
      sys := calmSys 1 },
    { endpoint := .verify
      context := ⟨newsTenID, some userOneID, str ""⟩
      ext := cannedExtern 200 (completionBody (str "TRUE")) [str "TRUE"]
      sys := calmSys 2 },
    { endpoint := .verify
      context := ⟨newsTenID, some userOneID, str ""⟩
      ext := cannedExtern 200 (completionBody (str "FALSE")) [str "FALSE"]
      sys := calmSys 3 } ]

/-- The canonical 36-byte text of a UUID, as `uuid.UUID.String` prints it. -/
def formatCanonical (u : UUID) : GoString :=
  let ds : GoString := (Nat.toDigits 16 (u % 2 ^ 128)).map (fun c => c.toNat.toUInt8)
  let padded := List.replicate (32 - ds.length) 48 ++ ds
  padded.take 8 ++ [45] ++ (padded.drop 8).take 4 ++ [45] ++ (padded.drop 12).take 4 ++ [45]
    ++ (padded.drop 16).take 4 ++ [45] ++ padded.drop 20

/-- The fixed first segment of the tokens of the world `cannedAuth`. -/
def tokenHeader : GoString := str "eyJhbGciOiJIUzI1NiIsInR5cCI6IkpXVCJ9."

/-- A world of the auth service: the identity provider accepts the one code
"4/0AX4XfWh-valid-code" and reports the Google user "g-1"; a signed token is the
fixed header, the 36-byte subject, a dot and, standing in for the signature, the
secret; `jwt.Parse` accepts exactly the tokens of that shape whose last segment
is the key the key function returns. -/
def cannedAuth : AuthExtern :=
  { exchange := fun code =>
      if code = str "4/0AX4XfWh-valid-code" then .ok (str "ya29.a0AfH6SMB-access")
      else .error (str "oauth2: cannot fetch token: 400 Bad Request")
    newRequest := fun method url => .ok ⟨method, url, str "", []⟩
    clientDo := fun _ => .ok ⟨200, .ok (str "")⟩
    decodeUserInfo := fun _ => .ok ⟨str "g-1", str "a@example.com", true, str "A", str ""⟩
    uuidString := formatCanonical
    jwtNow := 5
    jwtNowAgain := 5
    signedString := fun claims secret => .ok (tokenHeader ++ claims.Subject ++ str "." ++ secret)
    jwtParse := fun token keyfunc =>
      if tokenHeader <+: token ∧ (token.drop (tokenHeader.length + 36)).take 1 = str "." then
        match keyfunc ⟨true, str "HS256", none, false⟩ with
        | .error err => .error (str "token is unverifiable: error while executing keyfunc: " ++ err)
        | .ok key =>
          if token.drop (tokenHeader.length + 37) = key then
            .ok ⟨true, str "HS256",
              some [(str "sub", .string ((token.drop tokenHeader.length).take 36))], true⟩
          else .error (str "token signature is invalid: signature is invalid")
      else .error (str "token is malformed: token contains an invalid number of segments")
    updateFault := none }

/-! ## Specification-level definitions -/

/-- Specification of `contains`: `substr` occurs in `s` as a contiguous run of
bytes, that is `s` is some bytes, then `substr`, then some bytes. -/
def occursIn (substr s : GoString) : Prop := ∃ before after, before ++ substr ++ after = s

/-- Specification of `buildPrompt`, following the wording of the contract: the
fixed framing ending in "Content: ", the content and a newline; a
"Source Link: " line exactly when the link is non-empty; a "Photo URL: " line
exactly when the photo URL is non-empty; the fixed closing instruction. -/
def promptSpec (content link photoURL : GoString) : GoString :=
  str "Please fact-check the following news content:\n\nContent: " ++ content ++ str "\n"
    ++ (if link = str "" then str "" else str "Source Link: " ++ link ++ str "\n")
    ++ (if photoURL = str "" then str "" else str "Photo URL: " ++ photoURL ++ str "\n")
    ++ str "\nPlease respond with:\n1. A clear assessment: 'TRUE', 'FALSE', or 'UNCERTAIN'\n2. A detailed explanation for your assessment\n3. Any relevant context or sources you considered"

/-- The fixed closing instruction of the prompt. -/
def promptClosing : GoString :=
  str "\nPlease respond with:\n1. A clear assessment: 'TRUE', 'FALSE', or 'UNCERTAIN'\n2. A detailed explanation for your assessment\n3. Any relevant context or sources you considered"

/-! ## Theorems -/

/-! ### Helper lemmas on byte strings -/

theorem contains_eq (s substr : GoString) :
    contains s substr = some (decide (substr <:+: s)) := by
  induction s with
  | nil =>
    unfold contains
    cases substr with
    | nil => simp
    | cons a l => simp
  | cons c t ih =>
    unfold contains
    by_cases hlen : (c :: t).length ≥ substr.length
    · rw [if_pos hlen]
      by_cases heq : c :: t = substr
      · rw [if_pos heq]; subst heq; simp
      · rw [if_neg heq]
        by_cases hgt : (c :: t).length > substr.length
        · rw [if_pos hgt]
          have h1 : sliceTo (c :: t) substr.length = some ((c :: t).take substr.length) := by
            unfold sliceTo; rw [if_pos hlen]
          have h2 : sliceFrom (c :: t) ((c :: t).length - substr.length)
              = some ((c :: t).drop ((c :: t).length - substr.length)) := by
            unfold sliceFrom; rw [if_pos (Nat.sub_le _ _)]
          rw [h1, Option.some_bind]
          by_cases hp : (c :: t).take substr.length = substr
          · rw [if_pos hp]
            have : substr <+: c :: t := List.prefix_iff_eq_take.mpr hp.symm
            simp [this.isInfix]
          · rw [if_neg hp, h2, Option.some_bind]
            by_cases hs : (c :: t).drop ((c :: t).length - substr.length) = substr
            · rw [if_pos hs]
              have : substr <:+ c :: t := List.suffix_iff_eq_drop.mpr hs.symm
              simp [this.isInfix]
            · rw [if_neg hs]
              show contains t substr = _
              rw [ih]
              have hnp : ¬ substr <+: c :: t := fun h => hp (List.prefix_iff_eq_take.mp h).symm
              simp [List.infix_cons_iff, hnp]
        · rw [if_neg hgt]
          have hl : (c :: t).length = substr.length := by omega
          have : ¬ substr <:+: c :: t := fun h => heq (h.eq_of_length hl.symm).symm
          simp [this]
    · rw [if_neg hlen]
      have : ¬ substr <:+: c :: t := fun h => hlen h.length_le
      simp [this]

theorem containsEither_eq (s a b : GoString) :
    containsEither s a b = some (decide (a <:+: s ∨ b <:+: s)) := by
  unfold containsEither
  rw [contains_eq, Option.some_bind]
  by_cases ha : a <:+: s
  · simp [ha]
  · simp [ha, contains_eq]

/-- Appending one byte that does not occur in a non-empty needle neither creates
nor destroys an occurrence of the needle. -/
theorem infix_append_byte (sub s : GoString) (b : UInt8) (hne : sub ≠ []) (hb : b ∉ sub) :
    sub <:+: s ++ [b] ↔ sub <:+: s := by
  rw [List.infix_concat_iff, List.suffix_concat_iff]
  constructor
  · rintro ((h | ⟨t, rfl, _⟩) | h)
    · exact absurd h hne
    · exact absurd (by simp) hb
    · exact h
  · exact fun h => Or.inr h

/-- The padding byte of the parser is a space, which occurs in none of the four
status keywords: the padded text has a keyword exactly when the text has it. -/
theorem keyword_infix_padded (kw response : GoString)
    (hkw : kw = str "TRUE" ∨ kw = str "true" ∨ kw = str "FALSE" ∨ kw = str "false") :
    kw <:+: response ++ str " " ↔ kw <:+: response := by
  have hsp : str " " = [32] := by decide
  rw [hsp]
  apply infix_append_byte
  · rcases hkw with h | h | h | h <;> subst h <;> decide
  · rcases hkw with h | h | h | h <;> subst h <;> decide

/-- Closed form of the parser: it always returns, the status is decided by the
two ordered keyword tests, and the second component is the padded text. -/
theorem parseOpenAIResponse_eq (response : GoString) :
    parseOpenAIResponse response =
      some (if str "TRUE" <:+: response ∨ str "true" <:+: response then str "true"
            else if str "FALSE" <:+: response ∨ str "false" <:+: response then str "false"
            else str "uncertain",
            response ++ str " ") := by
  unfold parseOpenAIResponse
  simp only [containsEither_eq, Option.some_bind,
    keyword_infix_padded (str "TRUE") response (Or.inl rfl),
    keyword_infix_padded (str "true") response (Or.inr (Or.inl rfl)),
    keyword_infix_padded (str "FALSE") response (Or.inr (Or.inr (Or.inl rfl))),
    keyword_infix_padded (str "false") response (Or.inr (Or.inr (Or.inr rfl)))]
  by_cases h1 : str "TRUE" <:+: response ∨ str "true" <:+: response
  · simp [h1]
  · by_cases h2 : str "FALSE" <:+: response ∨ str "false" <:+: response
    · simp [h1, h2]
    · simp [h1, h2]

/-! ### The response parser -/

/-- C1: every completion text that contains "TRUE" anywhere (whether or not it
also contains "FALSE") gets status "true". -/
theorem parseOpenAIResponse_status_TRUE (response : GoString)
    (h : str "TRUE" <:+: response) :
    (parseOpenAIResponse response).map Prod.fst = some (str "true") := by
  rw [parseOpenAIResponse_eq]
  simp [h]

theorem parseOpenAIResponse_status_TRUE_witness :
    str "TRUE" <:+: str "FALSE? No: TRUE." ∧
      (parseOpenAIResponse (str "FALSE? No: TRUE.")).map Prod.fst = some (str "true") :=
  ⟨by decide, parseOpenAIResponse_status_TRUE (str "FALSE? No: TRUE.") (by decide)⟩

/-- C2 as stated fails: the text "FALSE, not true" contains "FALSE" and does not
contain "TRUE", and its status is "true", not "false". -/
theorem parseOpenAIResponse_FALSE_without_TRUE_counterexample :
    ¬ (∀ response : GoString, str "FALSE" <:+: response → ¬ str "TRUE" <:+: response →
        (parseOpenAIResponse response).map Prod.fst = some (str "false")) := by
  intro h
  have := h (str "FALSE, not true") (by decide) (by decide)
  revert this
  decide

/-- C2 amended: a completion text that contains "FALSE" and contains neither
"TRUE" nor "true" gets status "false". -/
theorem parseOpenAIResponse_status_FALSE (response : GoString)
    (hF : str "FALSE" <:+: response)
    (hT : ¬ str "TRUE" <:+: response) (ht : ¬ str "true" <:+: response) :
    (parseOpenAIResponse response).map Prod.fst = some (str "false") := by
  rw [parseOpenAIResponse_eq]
  simp [hF, hT, ht]

theorem parseOpenAIResponse_status_FALSE_witness :
    str "FALSE" <:+: str "FALSE. Fabricated." ∧
      ¬ str "TRUE" <:+: str "FALSE. Fabricated." ∧
      ¬ str "true" <:+: str "FALSE. Fabricated." ∧
      (parseOpenAIResponse (str "FALSE. Fabricated.")).map Prod.fst = some (str "false") :=
  ⟨by decide, by decide, by decide,
    parseOpenAIResponse_status_FALSE (str "FALSE. Fabricated.")
      (by decide) (by decide) (by decide)⟩

/-- C3: the parser returns as explanation the completion text with the padding
space still appended, for every completion text; the explanation is never the
completion text itself. -/
theorem parseOpenAIResponse_explanation_padded (response : GoString) :
    (parseOpenAIResponse response).map Prod.snd = some (response ++ str " ") ∧
      (parseOpenAIResponse response).map Prod.snd ≠ some response := by
  rw [parseOpenAIResponse_eq]
  refine ⟨rfl, ?_⟩
  intro h
  have hlen := congrArg (fun o => (o.map List.length)) h
  have hsp : (str " ").length = 1 := by decide
  simp [hsp] at hlen

/-- C4: the status is "uncertain" exactly when the completion text contains none
of "TRUE", "true", "FALSE", "false"; in every case the parser returns one of the
three statuses "true", "false", "uncertain". -/
theorem parseOpenAIResponse_status_uncertain_iff (response : GoString) :
    ((parseOpenAIResponse response).map Prod.fst = some (str "uncertain") ↔
        (¬ str "TRUE" <:+: response ∧ ¬ str "true" <:+: response ∧
          ¬ str "FALSE" <:+: response ∧ ¬ str "false" <:+: response)) ∧
      ((parseOpenAIResponse response).map Prod.fst = some (str "uncertain") ∨
        (parseOpenAIResponse response).map Prod.fst = some (str "true") ∨
        (parseOpenAIResponse response).map Prod.fst = some (str "false")) := by
  rw [parseOpenAIResponse_eq]
  have htu : str "true" ≠ str "uncertain" := by decide
  have hfu : str "false" ≠ str "uncertain" := by decide
  by_cases h1 : str "TRUE" <:+: response ∨ str "true" <:+: response
  · rw [if_pos h1]
    refine ⟨⟨fun h => absurd (Option.some.inj h) htu, fun h => ?_⟩, Or.inr (Or.inl rfl)⟩
    rcases h1 with h1 | h1
    · exact absurd h1 h.1
    · exact absurd h1 h.2.1
  · rw [if_neg h1]
    by_cases h2 : str "FALSE" <:+: response ∨ str "false" <:+: response
    · rw [if_pos h2]
      refine ⟨⟨fun h => absurd (Option.some.inj h) hfu, fun h => ?_⟩, Or.inr (Or.inr rfl)⟩
      rcases h2 with h2 | h2
      · exact absurd h2 h.2.2.1
      · exact absurd h2 h.2.2.2
    · rw [if_neg h2]
      refine ⟨⟨fun _ => ?_, fun _ => rfl⟩, Or.inl rfl⟩
      exact ⟨fun h => h1 (Or.inl h), fun h => h1 (Or.inr h),
        fun h => h2 (Or.inl h), fun h => h2 (Or.inr h)⟩

/-- C5 as stated fails: the text "true or false?" contains both a "true" and a
"false" substring, and its status is "true", not "uncertain". -/
theorem parseOpenAIResponse_both_counterexample :
    str "true" <:+: str "true or false?" ∧ str "false" <:+: str "true or false?" ∧
      (parseOpenAIResponse (str "true or false?")).map Prod.fst = some (str "true") ∧
      (parseOpenAIResponse (str "true or false?")).map Prod.fst ≠ some (str "uncertain") := by
  decide

/-- C5 amended: a completion text that contains both a "true" substring and a
"false" substring gets status "true": the test for "true" is made first and
wins. -/
theorem parseOpenAIResponse_both_status_true (response : GoString)
    (ht : str "true" <:+: response) (_hf : str "false" <:+: response) :
    (parseOpenAIResponse response).map Prod.fst = some (str "true") := by
  rw [parseOpenAIResponse_eq]
  simp [ht]

theorem parseOpenAIResponse_both_status_true_witness :
    str "true" <:+: str "partly true, partly false" ∧
      str "false" <:+: str "partly true, partly false" ∧
      (parseOpenAIResponse (str "partly true, partly false")).map Prod.fst
        = some (str "true") :=
  ⟨by decide, by decide,
    parseOpenAIResponse_both_status_true (str "partly true, partly false")
      (by decide) (by decide)⟩

/-! ### The model adapter -/

/-- C6: with an empty model API key, `VerifyNews` returns status "uncertain", the
fixed configuration message and a nil error, for every content, link and photo
URL, and it has built no prompt and made no network request. -/
theorem VerifyNews_not_configured (cfg : Config) (ext : Extern)
    (content link photoURL : GoString) (hkey : cfg.OpenAIAPIKey = str "") :
    VerifyNews cfg ext content link photoURL =
      ([], some ⟨str "uncertain",
        str "OpenAI API not configured. Please configure your OpenAI API key to enable fact-checking.",
        none⟩) ∧ IsAvailable cfg = false := by
  constructor
  · unfold VerifyNews
    rw [if_pos (Or.inl hkey)]
  · simp [IsAvailable, hkey]

theorem VerifyNews_not_configured_witness :
    VerifyNews { liveConfig with OpenAIAPIKey := str "" } (cannedExtern 200 (str "") [])
        (str "The moon is made of cheese") (str "http://example.com") (str "") =
      ([], some ⟨str "uncertain",
        str "OpenAI API not configured. Please configure your OpenAI API key to enable fact-checking.",
        none⟩) :=
  (VerifyNews_not_configured { liveConfig with OpenAIAPIKey := str "" }
    (cannedExtern 200 (str "") []) (str "The moon is made of cheese")
    (str "http://example.com") (str "") rfl).1

/-- C7 as stated fails: the provider answers 500 with a JSON error body whose
code is "server_error"; the error of `VerifyNews` is
"OpenAI API error (server_error): boom", which does not carry the status code. -/
theorem VerifyNews_error_without_status_counterexample :
    (500 : Int) ≠ StatusOK ∧
      str "server_error" ≠ str "insufficient_quota" ∧
      str "server_error" ≠ str "rate_limit_exceeded" ∧
      (VerifyNews liveConfig (cannedExtern 500 serverErrorBody []) (str "x") (str "") (str "")).2
        = some (.fail (str "OpenAI API error (server_error): boom")) ∧
      ¬ (itoa 500 <:+: str "OpenAI API error (server_error): boom") := by
  decide

/-- C7 amended: when the provider answers with a non-success HTTP status, then
(a) if the body decodes as a JSON error object whose code is neither
"insufficient_quota" nor "rate_limit_exceeded", the error is the generic
"OpenAI API error (<code>): <message>", carrying the provider's code and message;
(b) if the body does not decode, the error is "OpenAI API returned status <n>",
carrying the HTTP status code. -/
theorem VerifyNews_upstream_error (cfg : Config) (ext : Extern)
    (content link photoURL jsonData body : GoString) (req0 : HTTPRequest) (resp : HTTPResponse)
    (hkey : cfg.OpenAIAPIKey ≠ str "" ∧ cfg.OpenAIAPIKey ≠ str "your-openai-api-key")
    (hm : ext.jsonMarshal (chatRequest (buildPrompt content link photoURL)) = .ok jsonData)
    (hr : ext.newRequest (str "POST") (cfg.OpenAIEndpoint ++ str "/chat/completions") jsonData
      = .ok req0)
    (hd : ext.clientDo (setHeaders cfg req0) = .ok resp)
    (hb : resp.ReadAll = .ok body)
    (hs : resp.StatusCode ≠ StatusOK) :
    (∀ e, ext.unmarshalErrorResp body = .ok e →
        e.Code ≠ str "insufficient_quota" → e.Code ≠ str "rate_limit_exceeded" →
        (VerifyNews cfg ext content link photoURL).2 =
          some (.fail (str "OpenAI API error (" ++ e.Code ++ str "): " ++ e.Message))) ∧
      (∀ m, ext.unmarshalErrorResp body = .error m →
        (VerifyNews cfg ext content link photoURL).2 =
          some (.fail (str "OpenAI API returned status " ++ itoa resp.StatusCode)) ∧
        itoa resp.StatusCode <:+: str "OpenAI API returned status " ++ itoa resp.StatusCode) := by
  have hk : ¬ (cfg.OpenAIAPIKey = str "" ∨ cfg.OpenAIAPIKey = str "your-openai-api-key") :=
    fun h => h.elim hkey.1 hkey.2
  constructor
  · intro e he h1 h2
    unfold VerifyNews
    rw [if_neg hk]
    simp only [hm, hr, hd, hb, he, if_pos hs, if_neg h1, if_neg h2]
  · intro m he
    constructor
    · unfold VerifyNews
      rw [if_neg hk]
      simp only [hm, hr, hd, hb, he, if_pos hs]
    · exact (List.suffix_append _ _).isInfix

theorem VerifyNews_upstream_error_witness :
    (VerifyNews liveConfig (cannedExtern 502 (str "Bad Gateway") []) (str "x") (str "")
        (str "")).2 = some (.fail (str "OpenAI API returned status 502")) ∧
      (VerifyNews liveConfig (cannedExtern 500 serverErrorBody []) (str "x") (str "")
        (str "")).2 = some (.fail (str "OpenAI API error (server_error): boom")) :=
  ⟨((VerifyNews_upstream_error liveConfig (cannedExtern 502 (str "Bad Gateway") [])
      (str "x") (str "") (str "") _ (str "Bad Gateway") _ ⟨502, .ok (str "Bad Gateway")⟩
      (by decide) rfl rfl rfl rfl (by decide)).2 _ rfl).1,
   (VerifyNews_upstream_error liveConfig (cannedExtern 500 serverErrorBody [])
      (str "x") (str "") (str "") _ serverErrorBody _ ⟨500, .ok serverErrorBody⟩
      (by decide) rfl rfl rfl rfl (by decide)).1 _ rfl (by decide) (by decide)⟩

/-! ### The user-news listing handler -/

/-- C8: a request to the user-news listing handler whose path id is non-empty and
is not the caller's authenticated user id (another id, or no authenticated id at
all) is answered 403 without any call of the news service; when the two ids are
equal and the service succeeds, the answer is 200 with the service's list and a
count equal to the length of that list. -/
theorem GetUserNewsHandler_access (sys : Sys) (db : DB) (c : Context) :
    (c.paramID ≠ str "" → c.userID ≠ some c.paramID →
        GetUserNewsHandler sys db c
          = ⟨db, [], [], some ⟨403, .error (str "Access denied")⟩⟩) ∧
      (∀ newsList, c.paramID ≠ str "" → c.userID = some c.paramID →
        GetUserNews sys db c.paramID = .ok newsList →
        GetUserNewsHandler sys db c
          = ⟨db, [.GetUserNews c.paramID], [],
              some ⟨200, .newsList newsList (newsList.length : Nat)⟩⟩) := by
  constructor
  · intro hne hid
    unfold GetUserNewsHandler
    simp only [if_neg hne]
    cases hu : c.userID with
    | none => rfl
    | some r =>
      have hr : r ≠ c.paramID := fun h => hid (by rw [hu, h])
      simp only [if_pos hr]
  · intro newsList hne hid hsvc
    unfold GetUserNewsHandler
    simp only [if_neg hne, hid, hsvc, ne_eq, not_true_eq_false, if_false]

theorem GetUserNewsHandler_access_witness :
    GetUserNewsHandler (calmSys 5) oneNewsDB ⟨userOneID, some newsTenID, str ""⟩
        = ⟨oneNewsDB, [], [], some ⟨403, .error (str "Access denied")⟩⟩ ∧
      GetUserNewsHandler (calmSys 5) oneNewsDB ⟨userOneID, some userOneID, str ""⟩
        = ⟨oneNewsDB, [.GetUserNews userOneID], [],
            some ⟨200, .newsList oneNewsDB.news 1⟩⟩ :=
  ⟨(GetUserNewsHandler_access (calmSys 5) oneNewsDB ⟨userOneID, some newsTenID, str ""⟩).1
      (by decide) (by decide),
   (GetUserNewsHandler_access (calmSys 5) oneNewsDB ⟨userOneID, some userOneID, str ""⟩).2
      oneNewsDB.news (by decide) rfl rfl⟩

/-! ### The news service: ids that are not stored -/

/-- C9 as stated fails: no stored row has the id string "abc", and both
`GetNewsByID` and `UpdateNewsStatus` fail on it with
"invalid news ID: invalid UUID length: 3", not with "news not found". -/
theorem not_found_counterexample :
    (∀ n ∈ oneNewsDB.news, (calmSys 5).uuidParse (str "abc") ≠ .ok n.ID) ∧
      GetNewsByID (calmSys 5) oneNewsDB (str "abc")
        = .error (str "invalid news ID: invalid UUID length: 3") ∧
      (UpdateNewsStatus (calmSys 5) oneNewsDB (str "abc") (str "true") (str "ok")).2
        = some (str "invalid news ID: invalid UUID length: 3") ∧
      str "invalid news ID: invalid UUID length: 3" ≠ str "news not found" := by
  refine ⟨?_, rfl, rfl, by decide⟩
  intro n _ h
  have h2 : (calmSys 5).uuidParse (str "abc") = .error (str "invalid UUID length: 3") := rfl
  rw [h2] at h
  cases h

/-- C9 amended: for an id string that parses as a UUID which no stored news row
has, and when the database driver does not fail, `GetNewsByID` and
`UpdateNewsStatus` both fail with "news not found" (and the tables are left as
they were); for an id string that does not parse as a UUID both fail with
"invalid news ID: " followed by the parser's error. -/
theorem not_found_of_absent (sys : Sys) (db : DB) (newsID status explanation : GoString) :
    (∀ u, sys.uuidParse newsID = .ok u → (∀ n ∈ db.news, n.ID ≠ u) →
        sys.queryFault = none → sys.execFault = none → sys.rowsAffectedFault = none →
        GetNewsByID sys db newsID = .error (str "news not found") ∧
        UpdateNewsStatus sys db newsID status explanation
          = (db, some (str "news not found"))) ∧
      (∀ err, sys.uuidParse newsID = .error err →
        GetNewsByID sys db newsID = .error (str "invalid news ID: " ++ err) ∧
        UpdateNewsStatus sys db newsID status explanation
          = (db, some (str "invalid news ID: " ++ err))) := by
  constructor
  · intro u hp habs hq he hr
    have hfind : db.news.find? (fun n => decide (n.ID = u)) = none := by
      rw [List.find?_eq_none]
      intro n hn
      simpa using habs n hn
    have hany : db.news.any (fun n => decide (n.ID = u)) = false := by
      rw [List.any_eq_false]
      intro n hn
      simpa using habs n hn
    have hfilter : db.news.filter (fun n => decide (n.ID = u)) = [] := by
      rw [List.filter_eq_nil_iff]
      intro n hn
      simpa using habs n hn
    have hmap : db.news.map (fun n =>
        if n.ID = u then
          { n with Status := status, Explanation := some explanation,
                   UpdatedAt := sys.currentTimestamp }
        else n) = db.news := by
      conv_rhs => rw [← List.map_id db.news]
      apply List.map_congr_left
      intro n hn
      rw [if_neg (habs n hn)]
      rfl
    constructor
    · unfold GetNewsByID queryRowNewsByID
      simp only [hp, hq, hfind]
    · unfold UpdateNewsStatus execUpdateNews
      simp only [hp, he, hr, hany, hfilter, hmap, List.length_nil, Bool.false_eq_true,
        false_and, if_false, if_true]
  · intro err hp
    constructor
    · unfold GetNewsByID
      simp only [hp]
    · unfold UpdateNewsStatus
      simp only [hp]

theorem not_found_of_absent_witness :
    (GetNewsByID (calmSys 5) oneNewsDB userOneID = .error (str "news not found") ∧
      UpdateNewsStatus (calmSys 5) oneNewsDB userOneID (str "true") (str "ok")
        = (oneNewsDB, some (str "news not found"))) ∧
    (GetNewsByID (calmSys 5) oneNewsDB (str "abc")
        = .error (str "invalid news ID: " ++ str "invalid UUID length: 3") ∧
      UpdateNewsStatus (calmSys 5) oneNewsDB (str "abc") (str "true") (str "ok")
        = (oneNewsDB, some (str "invalid news ID: " ++ str "invalid UUID length: 3"))) :=
  ⟨(not_found_of_absent (calmSys 5) oneNewsDB userOneID (str "true") (str "ok")).1 1 rfl
      (by decide) rfl rfl rfl,
   (not_found_of_absent (calmSys 5) oneNewsDB (str "abc") (str "true") (str "ok")).2
      (str "invalid UUID length: 3") rfl⟩

/-! ### The verify endpoint and the status of stored records -/

/-- A status returned by `VerifyNews` with a nil error is one of "true", "false",
"uncertain". -/
theorem VerifyNews_status (cfg : Config) (ext : Extern) (content link photoURL : GoString)
    (events : List Event) (status explanation : GoString)
    (h : VerifyNews cfg ext content link photoURL = (events, some ⟨status, explanation, none⟩)) :
    status = str "true" ∨ status = str "false" ∨ status = str "uncertain" := by
  unfold VerifyNews at h
  split at h
  · simp only [Prod.mk.injEq, Option.some.injEq, VerifyResult.mk.injEq] at h
    exact Or.inr (Or.inr h.2.1.symm)
  · dsimp only at h
    repeat' split at h
    all_goals try (simp [VerifyResult.fail] at h; done)
    rename_i hparse
    rw [parseOpenAIResponse_eq] at hparse
    simp only [Prod.mk.injEq, Option.some.injEq, VerifyResult.mk.injEq] at h hparse
    rw [← h.2.1, ← hparse.1]
    split
    · exact Or.inl rfl
    · split
      · exact Or.inr (Or.inl rfl)
      · exact Or.inr (Or.inr rfl)

theorem execUpdateNews_news (sys : Sys) (db db' : DB) (status explanation : GoString)
    (u : UUID) (k : Nat) (h : execUpdateNews sys db status explanation u = .ok (db', k)) :
    db'.news = db.news.map (fun n =>
      if n.ID = u then
        { n with Status := status, Explanation := some explanation,
                 UpdatedAt := sys.currentTimestamp }
      else n) := by
  unfold execUpdateNews at h
  split at h
  · cases h
  · split at h
    · cases h
    · cases h
      rfl

/-- The rows of the news table after `UpdateNewsStatus`: unchanged, or every row
with the given id rewritten with the given status. -/
theorem UpdateNewsStatus_news (sys : Sys) (db : DB) (newsID status explanation : GoString) :
    (UpdateNewsStatus sys db newsID status explanation).1.news = db.news ∨
      ∃ u, (UpdateNewsStatus sys db newsID status explanation).1.news =
        db.news.map (fun n =>
          if n.ID = u then
            { n with Status := status, Explanation := some explanation,
                     UpdatedAt := sys.currentTimestamp }
          else n) := by
  unfold UpdateNewsStatus
  cases hp : sys.uuidParse newsID with
  | error err => exact Or.inl rfl
  | ok u =>
    dsimp only
    cases hx : execUpdateNews sys db status explanation u with
    | error err => exact Or.inl rfl
    | ok res =>
      obtain ⟨db', k⟩ := res
      have hnews := execUpdateNews_news sys db db' status explanation u k hx
      refine Or.inr ⟨u, ?_⟩
      dsimp only
      cases sys.rowsAffectedFault with
      | some e => exact hnews
      | none =>
        dsimp only
        split <;> exact hnews

/-- A row of the news table keeps its position and id through `Verify`; its
status is kept or becomes one of "true", "false", "uncertain". -/
theorem Verify_row (cfg : Config) (ext : Extern) (sys : Sys) (db : DB) (c : Context)
    (i : Nat) (n : News) (hn : db.news[i]? = some n) :
    ∃ n', (Verify cfg ext sys db c).db.news[i]? = some n' ∧ n'.ID = n.ID ∧
      (n'.Status = n.Status ∨
        n'.Status = str "true" ∨ n'.Status = str "false" ∨ n'.Status = str "uncertain") := by
  have keep : ∃ n', db.news[i]? = some n' ∧ n'.ID = n.ID ∧
      (n'.Status = n.Status ∨
        n'.Status = str "true" ∨ n'.Status = str "false" ∨ n'.Status = str "uncertain") :=
    ⟨n, hn, rfl, Or.inl rfl⟩
  have upd : ∀ status explanation events,
      VerifyNews cfg ext
        (match GetNewsByID sys db c.paramID with
          | .ok news => news.Content
          | .error _ => str "")
        (match GetNewsByID sys db c.paramID with
          | .ok news => (match news.Link with | some l => l | none => str "")
          | .error _ => str "")
        (match GetNewsByID sys db c.paramID with
          | .ok news => (match news.PhotoURL with | some p => p | none => str "")
          | .error _ => str "")
        = (events, some ⟨status, explanation, none⟩) →
      ∃ n', (UpdateNewsStatus sys db c.paramID status explanation).1.news[i]? = some n' ∧
        n'.ID = n.ID ∧
        (n'.Status = n.Status ∨
          n'.Status = str "true" ∨ n'.Status = str "false" ∨ n'.Status = str "uncertain") := by
    intro status explanation events hv
    have hst := VerifyNews_status _ _ _ _ _ _ _ _ hv
    rcases UpdateNewsStatus_news sys db c.paramID status explanation with h | ⟨u, h⟩
    · rw [h]; exact keep
    · rw [h, List.getElem?_map, hn]
      by_cases hu : n.ID = u
      · refine ⟨{ n with Status := status, Explanation := some explanation,
                         UpdatedAt := sys.currentTimestamp }, ?_, rfl, Or.inr hst⟩
        rw [Option.map_some', if_pos hu]
      · exact ⟨n, by rw [Option.map_some', if_neg hu], rfl, Or.inl rfl⟩
  unfold Verify
  dsimp only
  split
  · exact keep
  · cases hg : GetNewsByID sys db c.paramID with
    | error e => exact keep
    | ok news =>
      rw [hg] at upd
      dsimp only at upd ⊢
      split
      · exact keep
      · exact keep
      · rename_i events status explanation hv
        have := upd status explanation events hv
        split
        · rename_i db' _ hu
          rw [hu] at this
          exact this
        · rename_i db' hu
          rw [hu] at this
          exact this

/-- A row of the news table keeps its position and all its columns through
`Submit`. -/
theorem Submit_row (sys : Sys) (db : DB) (c : Context) (i : Nat) (n : News)
    (hn : db.news[i]? = some n) : (Submit sys db c).db.news[i]? = some n := by
  have hi : i < db.news.length := by
    rcases List.getElem?_eq_some_iff.mp hn with ⟨h, _⟩
    exact h
  have hins : ∀ m db', execInsertNews sys db m = .ok db' → db'.news[i]? = some n := by
    intro m db' h
    unfold execInsertNews at h
    repeat' split at h
    all_goals try (cases h; done)
    cases h
    show (db.news ++ [m])[i]? = some n
    rw [List.getElem?_append_left hi, hn]
  unfold Submit
  split
  · exact hn
  · rename_i submission _
    split
    · exact hn
    · rename_i userID _
      have hsub : ∀ sub, (SubmitNews sys db userID sub).1.news[i]? = some n := by
        intro sub
        unfold SubmitNews
        split
        · exact hn
        · dsimp only
          split
          · exact hn
          · rename_i db' hok
            exact hins _ _ hok
      split
      · rename_i db' _ hs
        have := hsub submission
        rw [hs] at this
        exact this
      · rename_i db' _ hs
        have := hsub submission
        rw [hs] at this
        exact this

theorem run_append (cfg : Config) (db : DB) (reqs : List Request) (r : Request) :
    run cfg db (reqs ++ [r]) = (serve cfg (run cfg db reqs) r).db := by
  induction reqs generalizing db with
  | nil => rfl
  | cons q qs ih => exact ih (serve cfg db q).db

/-- C10 as stated fails: in the run "submit, verify, verify" by user 1 the
record has status "true" after the first verify request, which is not
"pending", and the second verify request changes it to "false". -/
theorem verify_changes_verified_record_counterexample :
    submitVerifyVerify.map (fun r => r.endpoint) = [.submit, .verify, .verify] ∧
      (run liveConfig oneUserDB (submitVerifyVerify.take 1)).news.map
        (fun n => (n.ID, n.Status)) = [(10, str "pending")] ∧
      (run liveConfig oneUserDB (submitVerifyVerify.take 2)).news.map
        (fun n => (n.ID, n.Status)) = [(10, str "true")] ∧
      (run liveConfig oneUserDB submitVerifyVerify).news.map
        (fun n => (n.ID, n.Status)) = [(10, str "false")] ∧
      str "true" ≠ str "pending" ∧ str "true" ≠ str "false" := by
  decide

/-- C10 amended: in every sequence of submit and verify requests, a stored news
record keeps its place and id through the next request, and its status is either
kept or, by a verify request only, set to one of "true", "false", "uncertain",
whatever the status was before (a record that is no longer "pending" can be
changed again by a later verify request); no record is set back to "pending". -/
theorem verify_status_transition (cfg : Config) (db0 : DB) (reqs : List Request)
    (r : Request) (i : Nat) (n : News)
    (hn : (run cfg db0 reqs).news[i]? = some n) :
    ∃ n', (run cfg db0 (reqs ++ [r])).news[i]? = some n' ∧ n'.ID = n.ID ∧
      (n'.Status = n.Status ∨
        (r.endpoint = .verify ∧
          (n'.Status = str "true" ∨ n'.Status = str "false" ∨
            n'.Status = str "uncertain"))) ∧
      (n.Status ≠ str "pending" → n'.Status ≠ str "pending") := by
  rw [run_append]
  have hpend : ∀ s : GoString,
      s = str "true" ∨ s = str "false" ∨ s = str "uncertain" → s ≠ str "pending" := by
    rintro s (h | h | h) <;> subst h <;> decide
  cases he : r.endpoint with
  | submit =>
    refine ⟨n, ?_, rfl, Or.inl rfl, fun h => h⟩
    unfold serve
    rw [he]
    exact Submit_row _ _ _ _ _ hn
  | verify =>
    obtain ⟨n', h1, h2, h3⟩ := Verify_row cfg r.ext r.sys _ r.context i n hn
    refine ⟨n', ?_, h2, ?_, ?_⟩
    · unfold serve
      rw [he]
      exact h1
    · rcases h3 with h3 | h3
      · exact Or.inl h3
      · exact Or.inr ⟨rfl, h3⟩
    · intro hnp
      rcases h3 with h3 | h3
      · rw [h3]; exact hnp
      · exact hpend _ h3

theorem verify_status_transition_witness :
    ∃ n', (run liveConfig oneUserDB (submitVerifyVerify.take 2 ++ [submitVerifyVerify.get ⟨2, by decide⟩])).news[0]?
        = some n' ∧ n'.ID = 10 ∧
      (n'.Status = str "true" ∨
        ((submitVerifyVerify.get ⟨2, by decide⟩).endpoint = .verify ∧
          (n'.Status = str "true" ∨ n'.Status = str "false" ∨
            n'.Status = str "uncertain"))) ∧
      (str "true" ≠ str "pending" → n'.Status ≠ str "pending") :=
  verify_status_transition liveConfig oneUserDB (submitVerifyVerify.take 2)
    (submitVerifyVerify.get ⟨2, by decide⟩) 0
    ⟨10, 1, str "The moon is made of cheese", none, none, str "true", some (str "TRUE "), 1, 2⟩
    (by decide)

/-! ### The submit handler -/

/-- C13: a submit request whose body is malformed (the JSON decoder rejects it) or
whose content is empty or missing (the decoded `Content` is the empty string) is
answered 400 "Invalid request body" without any call of `SubmitNews` and with the
tables unchanged, whether or not the caller is authenticated. -/
theorem Submit_rejects_invalid_body (sys : Sys) (db : DB) (c : Context)
    (hbody : (∃ err, sys.decodeSubmission c.body = .error err) ∨
      (∃ submission, sys.decodeSubmission c.body = .ok submission ∧
        submission.Content = str "")) :
    Submit sys db c = ⟨db, [], [], some ⟨400, .error (str "Invalid request body")⟩⟩ := by
  unfold Submit ShouldBindJSON
  rcases hbody with ⟨err, h⟩ | ⟨submission, h, hc⟩
  · simp only [h]
  · simp only [h, hc, if_true]

theorem Submit_rejects_invalid_body_witness :
    Submit (calmSys 5) oneUserDB ⟨str "", some userOneID, str "Bad"⟩
        = ⟨oneUserDB, [], [], some ⟨400, .error (str "Invalid request body")⟩⟩ ∧
      Submit { calmSys 5 with decodeSubmission := fun _ => .ok ⟨str "", none, none⟩ }
          oneUserDB ⟨str "", none, str "\x7b\"content\":\"\"\x7d"⟩
        = ⟨oneUserDB, [], [], some ⟨400, .error (str "Invalid request body")⟩⟩ :=
  ⟨Submit_rejects_invalid_body (calmSys 5) oneUserDB ⟨str "", some userOneID, str "Bad"⟩
      (Or.inl ⟨_, rfl⟩),
   Submit_rejects_invalid_body
      { calmSys 5 with decodeSubmission := fun _ => .ok ⟨str "", none, none⟩ }
      oneUserDB ⟨str "", none, str "\x7b\"content\":\"\"\x7d"⟩
      (Or.inr ⟨⟨str "", none, none⟩, rfl, rfl⟩)⟩

/-! ### The prompt -/

/-- C14: for every content, link and photo URL, `buildPrompt` returns exactly the
fixed framing ending in "Content: ", the content and a newline, then a
"Source Link: " line if and only if the link is non-empty, then a "Photo URL: "
line if and only if the photo URL is non-empty, then the fixed closing
instruction, which names 'TRUE', 'FALSE' and 'UNCERTAIN'; content, link and photo
URL are copied byte for byte, in that order. -/
theorem buildPrompt_eq_promptSpec (content link photoURL : GoString) :
    buildPrompt content link photoURL = promptSpec content link photoURL ∧
      promptClosing <:+ promptSpec content link photoURL ∧
      occursIn (str "'TRUE'") promptClosing ∧ occursIn (str "'FALSE'") promptClosing ∧
      occursIn (str "'UNCERTAIN'") promptClosing := by
  have hempty : str "" = ([] : GoString) := by decide
  refine ⟨?_, ?_, ?_, ?_, ?_⟩
  · unfold buildPrompt promptSpec
    rw [hempty]
    by_cases hl : link = [] <;> by_cases hp : photoURL = [] <;>
      simp [hl, hp, List.append_assoc]
  · unfold promptSpec promptClosing
    exact List.suffix_append _ _
  · show str "'TRUE'" <:+: promptClosing
    set_option maxRecDepth 20000 in decide
  · show str "'FALSE'" <:+: promptClosing
    set_option maxRecDepth 20000 in decide
  · show str "'UNCERTAIN'" <:+: promptClosing
    set_option maxRecDepth 20000 in decide

/-! ### The verify handler: callers and the status constraint -/

/-- C15: the verify handler does not depend on the caller: for every stored (or
not stored) news id and any two caller identities, the response, the service
calls, the adapter's actions and the tables afterwards are the same; in
particular a non-owner triggers the same verification and reads the same result
as the owner. -/
theorem Verify_independent_of_caller (cfg : Config) (ext : Extern) (sys : Sys) (db : DB)
    (newsID : GoString) (owner other : Option GoString) (body body' : GoString) :
    Verify cfg ext sys db ⟨newsID, owner, body⟩ = Verify cfg ext sys db ⟨newsID, other, body'⟩ := by
  unfold Verify
  rfl

/-- A caller who does not own news row 10 (user 2 in a table where the row belongs
to user 1) verifies it: the answer is 200 with the result, and the row is
updated. -/
theorem Verify_by_non_owner_example :
    (oneNewsDB.news.map fun n => n.UserID) = [1] ∧
      (Verify liveConfig (cannedExtern 200 (completionBody (str "TRUE")) [str "TRUE"])
          (calmSys 2) oneNewsDB
          ⟨newsTenID, some (str "00000000-0000-0000-0000-000000000002"), str ""⟩).resp
        = some ⟨200, .verification ⟨10, str "true", str "TRUE "⟩⟩ ∧
      ((Verify liveConfig (cannedExtern 200 (completionBody (str "TRUE")) [str "TRUE"])
          (calmSys 2) oneNewsDB
          ⟨newsTenID, some (str "00000000-0000-0000-0000-000000000002"), str ""⟩).db.news.map
        fun n => n.Status) = [str "true"] := by
  decide

/-- C16: whenever the model adapter returns status "uncertain" with a nil error
for a stored news item (the no-credential mode included), the update violates the
status constraint of the news table: `UpdateNewsStatus` fails, the verify handler
answers 500 "Failed to update news status", and the tables (so the record's
status and explanation) are left as they were. -/
theorem Verify_uncertain_fails (cfg : Config) (ext : Extern) (sys : Sys) (db : DB)
    (c : Context) (news : News) (events : List Event) (explanation : GoString)
    (hid : c.paramID ≠ str "")
    (hget : GetNewsByID sys db c.paramID = .ok news)
    (hver : VerifyNews cfg ext news.Content (news.Link.getD (str "")) (news.PhotoURL.getD (str ""))
      = (events, some ⟨str "uncertain", explanation, none⟩)) :
    (∃ err, UpdateNewsStatus sys db c.paramID (str "uncertain") explanation = (db, some err)) ∧
      statusCheck (str "uncertain") = false ∧
      (Verify cfg ext sys db c).resp
        = some ⟨500, .error (str "Failed to update news status")⟩ ∧
      (Verify cfg ext sys db c).db = db := by
  have hupd : ∃ err, UpdateNewsStatus sys db c.paramID (str "uncertain") explanation
      = (db, some err) := by
    unfold GetNewsByID at hget
    unfold UpdateNewsStatus
    cases hp : sys.uuidParse c.paramID with
    | error e => exact ⟨_, rfl⟩
    | ok u =>
      rw [hp] at hget
      dsimp only at hget ⊢
      unfold execUpdateNews
      cases he : sys.execFault with
      | some e => exact ⟨_, rfl⟩
      | none =>
        dsimp only
        have hany : db.news.any (fun n => decide (n.ID = u)) = true := by
          unfold queryRowNewsByID at hget
          cases hq : sys.queryFault with
          | some e => rw [hq] at hget; cases hget
          | none =>
            rw [hq] at hget
            dsimp only at hget
            cases hf : db.news.find? (fun n => decide (n.ID = u)) with
            | none => rw [hf] at hget; cases hget
            | some n =>
              rw [List.any_eq_true]
              exact ⟨n, List.mem_of_find?_eq_some hf, by simpa using List.find?_some hf⟩
        have hchk : statusCheck (str "uncertain") = false := by decide
        rw [if_pos ⟨hany, by simp [hchk]⟩]
        exact ⟨_, rfl⟩
  have hlink : (match news.Link with | some l => l | none => str "") = news.Link.getD (str "") := by
    cases news.Link <;> rfl
  have hphoto : (match news.PhotoURL with | some p => p | none => str "")
      = news.PhotoURL.getD (str "") := by
    cases news.PhotoURL <;> rfl
  obtain ⟨err, herr⟩ := hupd
  refine ⟨⟨err, herr⟩, by decide, ?_, ?_⟩
  · unfold Verify
    simp only [if_neg hid, hget, hlink, hphoto, hver, herr]
  · unfold Verify
    simp only [if_neg hid, hget, hlink, hphoto, hver, herr]

theorem Verify_uncertain_fails_witness :
    (Verify { liveConfig with OpenAIAPIKey := str "" } (cannedExtern 200 (str "") [])
        (calmSys 2) oneNewsDB ⟨newsTenID, some userOneID, str ""⟩).resp
      = some ⟨500, .error (str "Failed to update news status")⟩ ∧
    (Verify { liveConfig with OpenAIAPIKey := str "" } (cannedExtern 200 (str "") [])
        (calmSys 2) oneNewsDB ⟨newsTenID, some userOneID, str ""⟩).db = oneNewsDB :=
  (Verify_uncertain_fails { liveConfig with OpenAIAPIKey := str "" }
    (cannedExtern 200 (str "") []) (calmSys 2) oneNewsDB ⟨newsTenID, some userOneID, str ""⟩
    ⟨10, 1, str "The moon is made of cheese", none, none, str "pending", none, 1, 1⟩ []
    (str "OpenAI API not configured. Please configure your OpenAI API key to enable fact-checking.")
    (by decide) rfl rfl).2.2

/-! ### The substring helper -/

/-- C17: `contains(s, substr)` returns for all strings (the recursion is on the
tail of `s`, and no slice expression is out of range: the result is never the
abort `none`), and it returns true if and only if `substr` occurs in `s` as a
contiguous run of bytes; in particular it is true for an empty `substr`, false
for a non-empty `substr` in an empty `s`, and false when `substr` is longer than
`s`. -/
theorem contains_iff_occursIn (s substr : GoString) :
    (∃ b, contains s substr = some b) ∧
      (contains s substr = some true ↔ occursIn substr s) ∧
      (contains s substr = some false ↔ ¬ occursIn substr s) ∧
      contains s [] = some true ∧
      (substr ≠ [] → contains [] substr = some false) ∧
      (s.length < substr.length → contains s substr = some false) := by
  have hiff : ∀ a b : GoString, occursIn b a ↔ b <:+: a := fun _ _ => Iff.rfl
  refine ⟨⟨_, contains_eq s substr⟩, ?_, ?_, ?_, ?_, ?_⟩
  · rw [contains_eq, hiff]
    simp
  · rw [contains_eq, hiff]
    simp
  · rw [contains_eq]
    simp
  · intro hne
    rw [contains_eq]
    simp [hne]
  · intro hlt
    rw [contains_eq]
    have : ¬ substr <:+: s := fun h => absurd h.length_le (by omega)
    simp [this]

/-! ### The OAuth callback and the token service: unguarded slices -/

/-- A slice `s[:hi]` aborts exactly when `hi` is beyond the length of `s`. -/
theorem sliceTo_eq_none (s : GoString) (hi : Nat) : sliceTo s hi = none ↔ s.length < hi := by
  unfold sliceTo
  by_cases h : hi ≤ s.length
  · simp [h]
  · simp [h]
    omega

/-- C11: what the callback handler does for each code: an empty code is answered
400; a non-empty code shorter than 10 bytes aborts the handler in the slice
`code[:10]` of `HandleCallback`, before the code is exchanged and without any
response written by the handler (neither 200 nor the 500 with the generic
message); a code of 10 bytes or more is answered 200 with token and user or 500
"Failed to authenticate user", unless one of the later slices aborts. -/
theorem Callback_short_code_aborts (cfg : Config) (sys : Sys) (ax : AuthExtern) (db : DB)
    (code : GoString) :
    (code = str "" →
        Callback cfg sys ax db code
          = ⟨db, some (400, .error (str "Authorization code is required"))⟩) ∧
      (code ≠ str "" → code.length < 10 → Callback cfg sys ax db code = ⟨db, none⟩) ∧
      (10 ≤ code.length →
        (Callback cfg sys ax db code).resp = none ∨
        (Callback cfg sys ax db code).resp
          = some (500, .error (str "Failed to authenticate user")) ∨
        ∃ response, (Callback cfg sys ax db code).resp = some (200, .callback response)) := by
  refine ⟨?_, ?_, ?_⟩
  · intro h
    unfold Callback
    rw [if_pos h]
  · intro hne hlen
    unfold Callback HandleCallback
    rw [if_neg hne, (sliceTo_eq_none code 10).mpr hlen]
  · intro _
    unfold Callback
    split
    · rename_i h
      exact absurd h (by
        intro h
        subst h
        rename_i hlen
        revert hlen
        decide)
    · split
      · exact Or.inl rfl
      · exact Or.inr (Or.inl rfl)
      · exact Or.inr (Or.inr ⟨_, rfl⟩)

theorem Callback_short_code_aborts_witness :
    Callback liveConfig (calmSys 3) cannedAuth oneUserDB (str "abc") = ⟨oneUserDB, none⟩ :=
  (Callback_short_code_aborts liveConfig (calmSys 3) cannedAuth oneUserDB (str "abc")).2.1
    (by decide) (by decide)

/-- C12: what `ValidateToken` does on token strings: a token string shorter than
10 bytes (the empty string included) aborts in the slice `tokenString[:10]`, and
so does any token string when the signing secret is shorter than 10 bytes, in
`JWTSecret[:10]`: no error is returned; when both are at least 10 bytes long and
`jwt.Parse` rejects the token string, the result is the error
"failed to parse token: ..." and no subject. -/
theorem ValidateToken_short_token_aborts (cfg : Config) (ax : AuthExtern)
    (tokenString : GoString) :
    (tokenString.length < 10 → ValidateToken cfg ax tokenString = none) ∧
      (cfg.JWTSecret.length < 10 → ValidateToken cfg ax tokenString = none) ∧
      (10 ≤ tokenString.length → 10 ≤ cfg.JWTSecret.length →
        ∀ err, ax.jwtParse tokenString (keyFunc cfg) = .error err →
          ValidateToken cfg ax tokenString
            = some (.error (str "failed to parse token: " ++ err))) := by
  refine ⟨?_, ?_, ?_⟩
  · intro hlen
    unfold ValidateToken
    rw [(sliceTo_eq_none tokenString 10).mpr hlen]
  · intro hlen
    unfold ValidateToken
    rw [(sliceTo_eq_none cfg.JWTSecret 10).mpr hlen]
    cases sliceTo tokenString 10 <;> rfl
  · intro ht hs err hparse
    have h1 : sliceTo tokenString 10 = some (tokenString.take 10) := by
      unfold sliceTo
      rw [if_pos ht]
    have h2 : sliceTo cfg.JWTSecret 10 = some (cfg.JWTSecret.take 10) := by
      unfold sliceTo
      rw [if_pos hs]
    unfold ValidateToken
    simp only [h1, h2, hparse]

theorem ValidateToken_short_token_aborts_witness :
    ValidateToken liveConfig cannedAuth (str "abc") = none ∧
      ValidateToken liveConfig cannedAuth (str "") = none ∧
      ValidateToken { liveConfig with JWTSecret := str "secret" } cannedAuth
        (str "not-a-token") = none ∧
      ValidateToken liveConfig cannedAuth (str "not-a-token")
        = some (.error (str "failed to parse token: "
            ++ str "token is malformed: token contains an invalid number of segments")) :=
  ⟨(ValidateToken_short_token_aborts liveConfig cannedAuth (str "abc")).1 (by decide),
   (ValidateToken_short_token_aborts liveConfig cannedAuth (str "")).1 (by decide),
   (ValidateToken_short_token_aborts { liveConfig with JWTSecret := str "secret" } cannedAuth
      (str "not-a-token")).2.1 (by decide),
   (ValidateToken_short_token_aborts liveConfig cannedAuth (str "not-a-token")).2.2
      (by decide) (by decide) _ rfl⟩

end FactCheck
